import Mathlib

/-!
Verification development for the `pyawstools` S3 layer: a shallow embedding of
`src/pyawstools/s3/base_client.py` (the `S3Client` gateway and the batch
transfer engine `_copy_many` / `_download_many`) and
`src/pyawstools/s3/bucket_client.py` (the container-bound facade
`S3BucketClient`), together with theorems settling the behavioural claims
about partitioning, error handling, progress reporting and the move/upload
facade operations.

Conventions of the embedding:
* Every gateway operation wraps exactly one boto3 call on `self.s3`.  The
  outcome of that external call is passed in as an explicit
  `Except StoreErr _` argument (`resp`), and the Lean function reproduces the
  `try/except` structure of the Python method around it.  Bucket-name
  resolution (`_get_bucket`, a pure `.value` projection) is elided because no
  claim mentions it.
* boto3 raises `botocore.exceptions.ClientError` when the service answers a
  request with an error response (404 absence, 403 access denied, throttling,
  ...).  Connection-level failures (e.g. `EndpointConnectionError`, i.e. a
  network error) are `BotoCoreError` subclasses, not `ClientError`, so a
  Python `except ClientError` clause does not catch them.  `StoreErr`
  distinguishes the two families.
* A Python function that can raise is embedded as a function into `Except`;
  returning `Except.error e` models the exception `e` escaping to the caller.
-/

/-- The two families of store-side failures a boto3 call can raise:
`clientError` models `botocore.exceptions.ClientError` (the service returned
an error response: missing key, access denied, throttling, ...);
`connectionError` models the non-`ClientError` exceptions raised for
connection-level/network failures (`EndpointConnectionError` and friends). -/
inductive StoreErr where
  | clientError (msg : String)
  | connectionError (msg : String)
deriving DecidableEq, Repr

/-- Projects the value a caller receives out of an embedded result:
`some a` when the call returned `a`, `none` when it raised. -/
def surfaced {α : Type} (r : Except StoreErr α) : Option α :=
  match r with
  | .ok a => some a
  | .error _ => none

/-- `S3Client._upload_file` (base_client.py lines 81-99), the `put` gateway
operation, on the path without a disposition name: the store call
`upload_fileobj` is wrapped in `try/except ClientError`, which prints and
returns `False`; on success it returns `True`.  A non-`ClientError` exception
is not caught and propagates. -/
def uploadFile (resp : Except StoreErr Unit) : Except StoreErr Bool :=
  match resp with
  | .ok _ => .ok true
  | .error (.clientError _) => .ok false
  | .error e => .error e

/-- `S3Client._copy_object` (base_client.py lines 177-197): `copy_object` is
wrapped in `try/except ClientError` which prints and returns `False`; success
returns `True`; any other exception propagates. -/
def copyObject (resp : Except StoreErr Unit) : Except StoreErr Bool :=
  match resp with
  | .ok _ => .ok true
  | .error (.clientError _) => .ok false
  | .error e => .error e

/-- `S3Client._delete_object` (base_client.py lines 158-165): `delete_object`
wrapped in `try/except ClientError` (print, return `False`); success returns
`True`; other exceptions propagate. -/
def deleteObject (resp : Except StoreErr Unit) : Except StoreErr Bool :=
  match resp with
  | .ok _ => .ok true
  | .error (.clientError _) => .ok false
  | .error e => .error e

/-- `S3Client._get_file_obj` (base_client.py lines 207-214), the `get` gateway
operation; the body bytes are modelled as a `String`.  On success it returns
the body; `except ClientError` prints and returns `None`; other exceptions
propagate. -/
def getFileObj (resp : Except StoreErr String) : Except StoreErr (Option String) :=
  match resp with
  | .ok body => .ok (some body)
  | .error (.clientError _) => .ok none
  | .error e => .error e

/-- `S3Client._list_keys_of_prefix` (base_client.py lines 149-156), the `list`
gateway operation: on success the keys of the single `list_objects_v2` page;
`except ClientError` prints and returns `[]`; other exceptions propagate. -/
def listKeys (resp : Except StoreErr (List String)) : Except StoreErr (List String) :=
  match resp with
  | .ok ks => .ok ks
  | .error (.clientError _) => .ok []
  | .error e => .error e

/-- `S3Client._get_size` (base_client.py lines 268-271), the `size` gateway
operation.  The body is `response = self.s3.head_object(...)` followed by
`return response["ContentLength"]` with NO `try/except` at all, so the store
response — value or raised exception — is passed through unchanged. -/
def getSize (resp : Except StoreErr Nat) : Except StoreErr Nat :=
  resp

/-- `S3Client._key_exists` (base_client.py lines 199-205): `head_object`
inside `try` returning `True`; `except ClientError` returns `False`; an
exception outside the `ClientError` hierarchy (a connection-level network
failure) is not caught and propagates. -/
def keyExists (resp : Except StoreErr Unit) : Except StoreErr Bool :=
  match resp with
  | .ok _ => .ok true
  | .error (.clientError _) => .ok false
  | .error e => .error e

/-- A single-object store call issued by the move path, recorded as a trace
event: `copyOp src dst` is one `_copy_object` call, `deleteOp key` one
`_delete_object` call. -/
inductive StoreOp where
  | copyOp (srcKey dstKey : String)
  | deleteOp (key : String)
deriving DecidableEq, Repr

/-- `S3Client._move_object` (base_client.py lines 167-175): calls
`_copy_object(source, dest)` then `_delete_object(source)`.  The embedding
records the sequence of store calls issued. -/
def moveObject (srcKey dstKey : String) : List StoreOp :=
  [StoreOp.copyOp srcKey dstKey, StoreOp.deleteOp srcKey]

/-- `S3BucketClient.move_object` (bucket_client.py lines 95-97): calls
`self._move_object(self._bucket, source_key, self._bucket, dest_key)` and
then additionally `self.delete_object(source_key)`, which issues a second
`_delete_object` call on the source key. -/
def bucketMoveObject (srcKey dstKey : String) : List StoreOp :=
  moveObject srcKey dstKey ++ [StoreOp.deleteOp srcKey]

/-- `S3BucketClient.upload_file` (bucket_client.py lines 51-67).
`genKey` stands for the value `gen_s3_path` would produce (uuid + timestamp,
nondeterministic, so passed in); `uploadOk` is the boolean `_upload_file`
returns (`False` when a `ClientError` was caught).  Python's
`if not s3_path:` treats both `None` and the empty string as absent.  The
result of `_upload_file` is discarded and the chosen key returned. -/
def upload_file (genKey : String) (s3Path : Option String) (uploadOk : Bool) : String :=
  let key := match s3Path with
    | none => genKey
    | some p => if p = "" then genKey else p
  let _ignored := uploadOk
  key

/-- Abort of a whole batch call before any per-item work is dispatched:
`lengthMismatch` is the `ValueError("... must be the same length")` raised by
the explicit length check; `zeroDivision` is the `ZeroDivisionError` that
`math.ceil(len(source_keys) / batch_size)` raises when `batch_size == 0`. -/
inductive BatchAbort where
  | lengthMismatch
  | zeroDivision
deriving DecidableEq, Repr

/-- Everything observable about one completed `_copy_many` call:
`batches` is the list of batches, each batch the list of
`(source_key, dest_key)` pairs submitted to `copy_func` in that batch;
`progress` is the list of `(ordinal, total)` pairs printed by
`print(f"Finished batch copy {int((i/1000) + 1)}/{batch_count}")` after each
batch; `logged` is the list of per-item error messages printed by the
`except Exception as e: print(f"Error in copying: {e}")` handler. -/
structure CopyRun where
  batches : List (List (String × String))
  progress : List (Nat × Nat)
  logged : List String
deriving DecidableEq, Repr

/-- The error, if any, raised by the per-item operation `f` on the pair `p`;
this is what `future.result()` would re-raise for that item's task. -/
def itemErr (f : String → String → Except String Unit) (p : String × String) :
    Option String :=
  match f p.1 p.2 with
  | .error e => some e
  | .ok _ => none

/-- The loop `for i in range(0, len(source_keys), batch_size):` of
`S3Client._copy_many` (base_client.py lines 229-250).  Each iteration slices
off the next `b` sources and destinations (Python `source_keys[i:i+b]` on the
remainder is `take b` after having dropped the previous slices), zips them,
submits every pair to `copy_func`, collects the error messages printed by the
`except` handler around `future.result()`, and after the batch prints the
progress pair `(int(i/1000) + 1, batch_count)` — note the hard-coded `1000`
from the source.  `fuel` is a structural bound on the number of iterations:
each iteration consumes `min b |srcs|` ≥ 1 elements when `0 < b`, so any
`fuel ≥ |srcs|` makes the recursion agree with the Python loop. -/
def copyManyLoop (f : String → String → Except String Unit)
    (fuel : Nat) (srcs dsts : List String) (i b bc : Nat) : CopyRun :=
  match fuel with
  | 0 => ⟨[], [], []⟩
  | fuel + 1 =>
    if srcs.isEmpty then ⟨[], [], []⟩
    else
      let pairs := (srcs.take b).zip (dsts.take b)
      let rest := copyManyLoop f fuel (srcs.drop b) (dsts.drop b) (i + b) b bc
      ⟨pairs :: rest.batches,
       (i / 1000 + 1, bc) :: rest.progress,
       pairs.filterMap (itemErr f) ++ rest.logged⟩

/-- `S3Client._copy_many` (base_client.py lines 216-250).  First the length
check (`raise ValueError` on mismatch), then
`batch_count = math.ceil(len(source_keys) / batch_size)` (which raises
`ZeroDivisionError` when `batch_size == 0`; for naturals
`ceil(n / b) = (n + b - 1) / b`), then the batch loop.  Every per-item error
is caught by the handler around `future.result()`, so a run that passes the
two initial checks always completes normally (`Except.ok`). -/
def copyMany (f : String → String → Except String Unit)
    (srcs dsts : List String) (b : Nat) : Except BatchAbort CopyRun :=
  if srcs.length ≠ dsts.length then .error BatchAbort.lengthMismatch
  else if b = 0 then .error BatchAbort.zeroDivision
  else .ok (copyManyLoop f srcs.length srcs dsts 0 b ((srcs.length + b - 1) / b))

/-- What a caller of `_download_many` observes: `valueError` is the
length-mismatch `ValueError` raised before anything is dispatched;
`raised dispatched e` means all pairs in `dispatched` were submitted (every
task runs: all `executor.submit` calls happen before any `future.result()`)
but the un-wrapped `future.result()` re-raised the item error `e` to the
caller; `completed dispatched` is the normal return. -/
inductive DownloadResult where
  | valueError
  | raised (dispatched : List (String × String)) (e : String)
  | completed (dispatched : List (String × String))
deriving DecidableEq, Repr

/-- `S3Client._download_many` (base_client.py lines 252-266): the length
check raises `ValueError`; otherwise every `(key, local_path)` pair is
submitted to `download_func`, and the results are drained by a bare
`future.result()` with NO surrounding `try/except`, so the first failing
item's exception propagates to the caller.  `as_completed` yields futures in
completion order, which is not determined by the code; the embedding
determinizes it to list order, which is faithful whenever at most one item
fails and is only used in that regime. -/
def downloadMany (f : String → String → Except String Unit)
    (keys localPaths : List String) : DownloadResult :=
  if keys.length ≠ localPaths.length then .valueError
  else
    let pairs := keys.zip localPaths
    match pairs.findSome? (itemErr f) with
    | some e => .raised pairs e
    | none => .completed pairs

/-- The always-succeeding per-item operation, used to instantiate theorems at
concrete inputs. -/
def fOk : String → String → Except String Unit :=
  fun _ _ => Except.ok ()

/-- A per-item operation that fails (raises `"boom"`) exactly on source key
`"k2"`. -/
def fBoom : String → String → Except String Unit :=
  fun k _ => if k = "k2" then Except.error "boom" else Except.ok ()

/-- Unfolding: the loop does nothing once the remaining source list is empty
(the loop condition `i < len(source_keys)` fails). -/
theorem copyManyLoop_nil (f : String → String → Except String Unit)
    (fuel : Nat) (dsts : List String) (i b bc : Nat) :
    copyManyLoop f fuel [] dsts i b bc = ⟨[], [], []⟩ := by
  cases fuel <;> rfl

/-- Unfolding: out of fuel. -/
theorem copyManyLoop_zero (f : String → String → Except String Unit)
    (srcs dsts : List String) (i b bc : Nat) :
    copyManyLoop f 0 srcs dsts i b bc = ⟨[], [], []⟩ := rfl

/-- Unfolding of the `batches` component for one loop iteration on a
nonempty remainder. -/
theorem copyManyLoop_batches_cons (f : String → String → Except String Unit)
    (fuel : Nat) (a : String) (srcs1 dsts : List String) (i b bc : Nat) :
    (copyManyLoop f (fuel + 1) (a :: srcs1) dsts i b bc).batches =
      ((a :: srcs1).take b).zip (dsts.take b) ::
        (copyManyLoop f fuel ((a :: srcs1).drop b) (dsts.drop b) (i + b) b bc).batches := rfl

/-- Unfolding of the `progress` component for one loop iteration on a
nonempty remainder. -/
theorem copyManyLoop_progress_cons (f : String → String → Except String Unit)
    (fuel : Nat) (a : String) (srcs1 dsts : List String) (i b bc : Nat) :
    (copyManyLoop f (fuel + 1) (a :: srcs1) dsts i b bc).progress =
      (i / 1000 + 1, bc) ::
        (copyManyLoop f fuel ((a :: srcs1).drop b) (dsts.drop b) (i + b) b bc).progress := rfl

/-- Unfolding of the `logged` component for one loop iteration on a
nonempty remainder. -/
theorem copyManyLoop_logged_cons (f : String → String → Except String Unit)
    (fuel : Nat) (a : String) (srcs1 dsts : List String) (i b bc : Nat) :
    (copyManyLoop f (fuel + 1) (a :: srcs1) dsts i b bc).logged =
      (((a :: srcs1).take b).zip (dsts.take b)).filterMap (itemErr f) ++
        (copyManyLoop f fuel ((a :: srcs1).drop b) (dsts.drop b) (i + b) b bc).logged := rfl

/-- Splitting a zip at position `n`: the zip of the two prefixes followed by
the zip of the two suffixes is the whole zip. -/
theorem zip_take_drop {α β : Type} (l1 : List α) (l2 : List β) (n : Nat) :
    (l1.take n).zip (l2.take n) ++ (l1.drop n).zip (l2.drop n) = l1.zip l2 := by
  induction n generalizing l1 l2 with
  | zero => simp
  | succ n ih =>
    cases l1 with
    | nil => simp
    | cons a l1 =>
      cases l2 with
      | nil => simp
      | cons c l2 => simp [ih]

/-- If `findSome?` found nothing, the function is `none` on every element. -/
theorem findSome?_none {α β : Type} (g : α → Option β) :
    ∀ l : List α, l.findSome? g = none → ∀ x ∈ l, g x = none := by
  intro l
  induction l with
  | nil => intro _ x hx; cases hx
  | cons a l ih =>
    intro h x hx
    rw [List.findSome?_cons] at h
    cases hga : g a with
    | some b => rw [hga] at h; cases h
    | none =>
      rw [hga] at h
      cases hx with
      | head => exact hga
      | tail _ hmem => exact ih h x hmem

/-- Conversely, if the function is `none` everywhere, `findSome?` finds
nothing. -/
theorem findSome?_none_of_all {α β : Type} (g : α → Option β) :
    ∀ l : List α, (∀ x ∈ l, g x = none) → l.findSome? g = none := by
  intro l
  induction l with
  | nil => intro _; rfl
  | cons a l ih =>
    intro h
    rw [List.findSome?_cons, h a (List.mem_cons_self a l)]
    exact ih fun x hx => h x (List.mem_cons_of_mem a hx)

/-- If the function hits on some member, `findSome?` finds something. -/
theorem findSome?_some_of_mem {α β : Type} (g : α → Option β) (l : List α)
    (x : α) (hx : x ∈ l) (b : β) (hb : g x = some b) :
    ∃ c, l.findSome? g = some c := by
  induction l with
  | nil => cases hx
  | cons a l ih =>
    rw [List.findSome?_cons]
    cases hga : g a with
    | some c => exact ⟨c, rfl⟩
    | none =>
      cases hx with
      | head => rw [hga] at hb; cases hb
      | tail _ hmem => exact ih hmem

/-- Concatenating the batches in order gives back exactly the zipped
(source, destination) request sequence. -/
theorem copyManyLoop_join (f : String → String → Except String Unit) :
    ∀ (fuel : Nat) (srcs dsts : List String) (i b bc : Nat),
      srcs.length ≤ fuel → 0 < b →
      (copyManyLoop f fuel srcs dsts i b bc).batches.flatten = srcs.zip dsts := by
  intro fuel
  induction fuel with
  | zero =>
    intro srcs dsts i b bc hf _
    have hnil : srcs = [] := List.eq_nil_of_length_eq_zero (Nat.le_zero.mp hf)
    subst hnil
    rw [copyManyLoop_zero]
    simp
  | succ fuel ih =>
    intro srcs dsts i b bc hf hb
    cases srcs with
    | nil => rw [copyManyLoop_nil]; simp
    | cons a srcs1 =>
      have hdrop : ((a :: srcs1).drop b).length ≤ fuel := by
        simp only [List.length_drop, List.length_cons]
        simp only [List.length_cons] at hf
        omega
      rw [copyManyLoop_batches_cons, List.flatten_cons,
        ih ((a :: srcs1).drop b) (dsts.drop b) (i + b) b bc hdrop hb,
        zip_take_drop]

/-- The number of batches is `ceil(N / b) = (N + b - 1) / b`. -/
theorem copyManyLoop_count (f : String → String → Except String Unit) :
    ∀ (fuel : Nat) (srcs dsts : List String) (i b bc : Nat),
      srcs.length ≤ fuel → 0 < b →
      (copyManyLoop f fuel srcs dsts i b bc).batches.length =
        (srcs.length + b - 1) / b := by
  intro fuel
  induction fuel with
  | zero =>
    intro srcs dsts i b bc hf hb
    have hnil : srcs = [] := List.eq_nil_of_length_eq_zero (Nat.le_zero.mp hf)
    subst hnil
    rw [copyManyLoop_zero]
    show (0 : Nat) = (0 + b - 1) / b
    exact (Nat.div_eq_of_lt (by omega)).symm
  | succ fuel ih =>
    intro srcs dsts i b bc hf hb
    cases srcs with
    | nil =>
      rw [copyManyLoop_nil]
      show (0 : Nat) = (0 + b - 1) / b
      exact (Nat.div_eq_of_lt (by omega)).symm
    | cons a srcs1 =>
      have hdrop : ((a :: srcs1).drop b).length ≤ fuel := by
        simp only [List.length_drop, List.length_cons]
        simp only [List.length_cons] at hf
        omega
      rw [copyManyLoop_batches_cons, List.length_cons,
        ih ((a :: srcs1).drop b) (dsts.drop b) (i + b) b bc hdrop hb]
      simp only [List.length_drop, List.length_cons]
      rw [show srcs1.length + 1 + b - 1 = (srcs1.length + 1 - 1) + b by omega,
        Nat.add_div_right _ hb]
      congr 1
      rcases le_or_lt b (srcs1.length + 1) with h | h
      · congr 1
        omega
      · rw [Nat.sub_eq_zero_of_le (Nat.le_of_lt h),
          Nat.div_eq_of_lt (by omega), Nat.div_eq_of_lt (by omega)]

/-- Every batch holds at most `b` requests (each slice is a `take b`). -/
theorem copyManyLoop_sizes (f : String → String → Except String Unit) :
    ∀ (fuel : Nat) (srcs dsts : List String) (i b bc : Nat),
      ∀ c ∈ (copyManyLoop f fuel srcs dsts i b bc).batches, c.length ≤ b := by
  intro fuel
  induction fuel with
  | zero =>
    intro srcs dsts i b bc c hc
    rw [copyManyLoop_zero] at hc
    cases hc
  | succ fuel ih =>
    intro srcs dsts i b bc c hc
    cases srcs with
    | nil =>
      rw [copyManyLoop_nil] at hc
      cases hc
    | cons a srcs1 =>
      rw [copyManyLoop_batches_cons] at hc
      rcases List.mem_cons.mp hc with h | h
      · subst h
        rw [List.length_zip, List.length_take, List.length_take]
        exact le_trans (Nat.min_le_left _ _) (Nat.min_le_left _ _)
      · exact ih _ _ _ _ _ c h

/-- Every batch except possibly the last holds exactly `b` requests. -/
theorem copyManyLoop_dropLast (f : String → String → Except String Unit) :
    ∀ (fuel : Nat) (srcs dsts : List String) (i b bc : Nat),
      srcs.length = dsts.length → srcs.length ≤ fuel → 0 < b →
      ∀ c ∈ (copyManyLoop f fuel srcs dsts i b bc).batches.dropLast,
        c.length = b := by
  intro fuel
  induction fuel with
  | zero =>
    intro srcs dsts i b bc _ hf _ c hc
    have hnil : srcs = [] := List.eq_nil_of_length_eq_zero (Nat.le_zero.mp hf)
    subst hnil
    rw [copyManyLoop_zero] at hc
    cases hc
  | succ fuel ih =>
    intro srcs dsts i b bc hlen hf hb c hc
    cases srcs with
    | nil =>
      rw [copyManyLoop_nil] at hc
      cases hc
    | cons a srcs1 =>
      have hdrop : ((a :: srcs1).drop b).length ≤ fuel := by
        simp only [List.length_drop, List.length_cons]
        simp only [List.length_cons] at hf
        omega
      rw [copyManyLoop_batches_cons] at hc
      cases hrb :
          (copyManyLoop f fuel ((a :: srcs1).drop b) (dsts.drop b) (i + b) b bc).batches with
      | nil =>
        rw [hrb] at hc
        cases hc
      | cons r rs =>
        rw [hrb] at hc
        have hdl : ((((a :: srcs1).take b).zip (dsts.take b)) :: r :: rs).dropLast =
            (((a :: srcs1).take b).zip (dsts.take b)) :: (r :: rs).dropLast := rfl
        rw [hdl] at hc
        have hcount := copyManyLoop_count f fuel ((a :: srcs1).drop b) (dsts.drop b)
          (i + b) b bc hdrop hb
        rw [hrb] at hcount
        have hgt : b < (a :: srcs1).length := by
          rcases Nat.lt_or_ge b (a :: srcs1).length with h | h
          · exact h
          · exfalso
            have hz : ((a :: srcs1).drop b).length = 0 := by
              simp only [List.length_drop]
              omega
            rw [hz, Nat.div_eq_of_lt (by omega)] at hcount
            simp at hcount
        rcases List.mem_cons.mp hc with h | h
        · subst h
          rw [List.length_zip, List.length_take, List.length_take, ← hlen,
            Nat.min_self]
          exact Nat.min_eq_left (Nat.le_of_lt hgt)
        · have hlen2 : ((a :: srcs1).drop b).length = ((dsts.drop b)).length := by
            simp only [List.length_drop, hlen]
          have := ih ((a :: srcs1).drop b) (dsts.drop b) (i + b) b bc hlen2 hdrop hb c
          rw [hrb] at this
          exact this h

/-- The logged item-error messages are exactly the errors the per-item
operation raises, over the whole zipped request sequence. -/
theorem copyManyLoop_logged_eq (f : String → String → Except String Unit) :
    ∀ (fuel : Nat) (srcs dsts : List String) (i b bc : Nat),
      srcs.length ≤ fuel → 0 < b →
      (copyManyLoop f fuel srcs dsts i b bc).logged =
        (srcs.zip dsts).filterMap (itemErr f) := by
  intro fuel
  induction fuel with
  | zero =>
    intro srcs dsts i b bc hf _
    have hnil : srcs = [] := List.eq_nil_of_length_eq_zero (Nat.le_zero.mp hf)
    subst hnil
    rw [copyManyLoop_zero]
    simp
  | succ fuel ih =>
    intro srcs dsts i b bc hf hb
    cases srcs with
    | nil =>
      rw [copyManyLoop_nil]
      simp
    | cons a srcs1 =>
      have hdrop : ((a :: srcs1).drop b).length ≤ fuel := by
        simp only [List.length_drop, List.length_cons]
        simp only [List.length_cons] at hf
        omega
      rw [copyManyLoop_logged_cons,
        ih ((a :: srcs1).drop b) (dsts.drop b) (i + b) b bc hdrop hb,
        ← List.filterMap_append, zip_take_drop]

/-- When the two initial checks pass, `_copy_many` runs the batch loop and
returns normally. -/
theorem copyMany_ok (f : String → String → Except String Unit)
    (srcs dsts : List String) (b : Nat)
    (hlen : srcs.length = dsts.length) (hb : 0 < b) :
    copyMany f srcs dsts b =
      Except.ok (copyManyLoop f srcs.length srcs dsts 0 b
        ((srcs.length + b - 1) / b)) := by
  unfold copyMany
  rw [if_neg (fun h => h hlen), if_neg (Nat.pos_iff_ne_zero.mp hb)]

/-- With equal-length inputs, `_download_many` either completes normally —
in which case no item raised — or re-raises some item error; in both cases
every pair was submitted. -/
theorem downloadMany_cases (f : String → String → Except String Unit)
    (keys paths : List String) (hlen : keys.length = paths.length) :
    (downloadMany f keys paths = DownloadResult.completed (keys.zip paths) ∧
       ∀ p ∈ keys.zip paths, itemErr f p = none) ∨
    (∃ e, downloadMany f keys paths = DownloadResult.raised (keys.zip paths) e) := by
  cases hfs : (keys.zip paths).findSome? (itemErr f) with
  | none =>
    left
    refine ⟨?_, findSome?_none _ _ hfs⟩
    simp [downloadMany, hlen, hfs]
  | some e =>
    right
    refine ⟨e, ?_⟩
    simp [downloadMany, hlen, hfs]

/-- C1: for every request list (equal-length source and destination key
lists, N items) and every batch_size > 0, `_copy_many` completes and
partitions the requests into contiguous chunks: it processes exactly
`ceil(N / batch_size) = (N + batch_size - 1) / batch_size` batches, the
concatenation of the batches in order is exactly the original
(source, destination) pair sequence — so each pair is dispatched to
`copy_func` with its exact source and destination key — every batch has at
most `batch_size` items, and every batch except possibly the last has
exactly `batch_size` items. -/
theorem c1_copy_many_partitions (f : String → String → Except String Unit)
    (srcs dsts : List String) (b : Nat)
    (hlen : srcs.length = dsts.length) (hb : 0 < b) :
    ∃ run : CopyRun, copyMany f srcs dsts b = Except.ok run ∧
      run.batches.length = (srcs.length + b - 1) / b ∧
      run.batches.flatten = srcs.zip dsts ∧
      (∀ c ∈ run.batches, c.length ≤ b) ∧
      (∀ c ∈ run.batches.dropLast, c.length = b) := by
  refine ⟨_, copyMany_ok f srcs dsts b hlen hb, ?_, ?_, ?_, ?_⟩
  · exact copyManyLoop_count f srcs.length srcs dsts 0 b _ le_rfl hb
  · exact copyManyLoop_join f srcs.length srcs dsts 0 b _ le_rfl hb
  · exact copyManyLoop_sizes f srcs.length srcs dsts 0 b _
  · exact copyManyLoop_dropLast f srcs.length srcs dsts 0 b _ hlen le_rfl hb

/-- Witness for C1 at the specification's own example: three requests,
batch_size 2, giving batches
`[("a/1.txt","b/1.txt"), ("a/2.txt","b/2.txt")]` then
`[("a/3.txt","b/3.txt")]`. -/
theorem c1_copy_many_partitions_witness :
    (["a/1.txt", "a/2.txt", "a/3.txt"] : List String).length =
      (["b/1.txt", "b/2.txt", "b/3.txt"] : List String).length ∧
    0 < 2 ∧
    (∃ run : CopyRun,
      copyMany fOk ["a/1.txt", "a/2.txt", "a/3.txt"]
          ["b/1.txt", "b/2.txt", "b/3.txt"] 2 = Except.ok run ∧
      run.batches.length =
        ((["a/1.txt", "a/2.txt", "a/3.txt"] : List String).length + 2 - 1) / 2 ∧
      run.batches.flatten =
        (["a/1.txt", "a/2.txt", "a/3.txt"] : List String).zip
          ["b/1.txt", "b/2.txt", "b/3.txt"] ∧
      (∀ c ∈ run.batches, c.length ≤ 2) ∧
      (∀ c ∈ run.batches.dropLast, c.length = 2)) :=
  ⟨rfl, by decide,
    c1_copy_many_partitions fOk ["a/1.txt", "a/2.txt", "a/3.txt"]
      ["b/1.txt", "b/2.txt", "b/3.txt"] 2 rfl (by decide)⟩

/-- C2 counterexample: in the download variant (`_download_many`) a failing
item's error is NOT caught — `future.result()` has no surrounding
`try/except` — so it is re-raised to the caller of the batch operation, here
as the `raised` outcome carrying the item error `"boom"`. -/
theorem c2_download_error_reraised_cex :
    downloadMany fBoom ["k1", "k2"] ["p1", "p2"] =
      DownloadResult.raised [("k1", "p1"), ("k2", "p2")] "boom" := rfl

/-- C2 amended: in the copy variant (`_copy_many`) every item-level error is
caught, logged and discarded — the call completes normally for every
per-item operation `f`, all pairs are still dispatched, and the log holds
exactly the item errors; in the download variant (`_download_many`) all
items are submitted (siblings execute), the call completes when no item
fails, but when some item fails an item error is re-raised to the caller. -/
theorem c2_batch_error_policy_amended :
    (∀ (f : String → String → Except String Unit) (srcs dsts : List String)
        (b : Nat), srcs.length = dsts.length → 0 < b →
        ∃ run : CopyRun, copyMany f srcs dsts b = Except.ok run ∧
          run.batches.flatten = srcs.zip dsts ∧
          run.logged = (srcs.zip dsts).filterMap (itemErr f)) ∧
    (∀ (f : String → String → Except String Unit) (keys paths : List String),
        keys.length = paths.length →
        ((∀ p ∈ keys.zip paths, itemErr f p = none) →
          downloadMany f keys paths =
            DownloadResult.completed (keys.zip paths)) ∧
        ((¬ ∀ p ∈ keys.zip paths, itemErr f p = none) →
          ∃ e, downloadMany f keys paths =
            DownloadResult.raised (keys.zip paths) e)) := by
  constructor
  · intro f srcs dsts b hlen hb
    exact ⟨_, copyMany_ok f srcs dsts b hlen hb,
      copyManyLoop_join f srcs.length srcs dsts 0 b _ le_rfl hb,
      copyManyLoop_logged_eq f srcs.length srcs dsts 0 b _ le_rfl hb⟩
  · intro f keys paths hlen
    constructor
    · intro hall
      have hfs : (keys.zip paths).findSome? (itemErr f) = none :=
        findSome?_none_of_all _ _ hall
      simp [downloadMany, hlen, hfs]
    · intro hno
      push_neg at hno
      rcases hno with ⟨p, hp, hne⟩
      cases hpe : itemErr f p with
      | none => exact absurd hpe hne
      | some e =>
        rcases findSome?_some_of_mem (itemErr f) (keys.zip paths) p hp e hpe
          with ⟨c, hc⟩
        exact ⟨c, by simp [downloadMany, hlen, hc]⟩

/-- Witness for C2 amended, at one single-item failing copy run and the
two-item download run where `"k2"` fails. -/
theorem c2_batch_error_policy_amended_witness :
    (∃ run : CopyRun, copyMany fBoom ["k2"] ["d1"] 1 = Except.ok run ∧
        run.batches.flatten = (["k2"] : List String).zip ["d1"] ∧
        run.logged = ((["k2"] : List String).zip ["d1"]).filterMap
          (itemErr fBoom)) ∧
    (((∀ p ∈ (["k1", "k2"] : List String).zip ["p1", "p2"],
          itemErr fBoom p = none) →
        downloadMany fBoom ["k1", "k2"] ["p1", "p2"] =
          DownloadResult.completed
            ((["k1", "k2"] : List String).zip ["p1", "p2"])) ∧
      ((¬ ∀ p ∈ (["k1", "k2"] : List String).zip ["p1", "p2"],
          itemErr fBoom p = none) →
        ∃ e, downloadMany fBoom ["k1", "k2"] ["p1", "p2"] =
          DownloadResult.raised
            ((["k1", "k2"] : List String).zip ["p1", "p2"]) e)) :=
  ⟨c2_batch_error_policy_amended.1 fBoom ["k2"] ["d1"] 1 rfl (by decide),
   c2_batch_error_policy_amended.2 fBoom ["k1", "k2"] ["p1", "p2"] rfl⟩

/-- C3 (code bug): the progress print of `_copy_many` computes its ordinal as
`int(i/1000) + 1` with a hard-coded `1000` instead of `batch_size`, so for
batch_size = 2 and three requests both batches report ordinal 1 — the run
emits progress `[(1, 2), (1, 2)]` instead of the claimed `[(1, 2), (2, 2)]`
("batch X of Y complete" with X the ordinal of the batch just drained). -/
theorem c3_progress_ordinal_bug :
    copyMany fOk ["a/1.txt", "a/2.txt", "a/3.txt"]
        ["b/1.txt", "b/2.txt", "b/3.txt"] 2 =
      Except.ok ⟨[[("a/1.txt", "b/1.txt"), ("a/2.txt", "b/2.txt")],
          [("a/3.txt", "b/3.txt")]], [(1, 2), (1, 2)], []⟩ ∧
    ¬ copyMany fOk ["a/1.txt", "a/2.txt", "a/3.txt"]
        ["b/1.txt", "b/2.txt", "b/3.txt"] 2 =
      Except.ok ⟨[[("a/1.txt", "b/1.txt"), ("a/2.txt", "b/2.txt")],
          [("a/3.txt", "b/3.txt")]], [(1, 2), (2, 2)], []⟩ := by
  have h1 : copyMany fOk ["a/1.txt", "a/2.txt", "a/3.txt"]
      ["b/1.txt", "b/2.txt", "b/3.txt"] 2 =
      Except.ok ⟨[[("a/1.txt", "b/1.txt"), ("a/2.txt", "b/2.txt")],
          [("a/3.txt", "b/3.txt")]], [(1, 2), (1, 2)], []⟩ := rfl
  refine ⟨h1, fun h => ?_⟩
  injection h1.symm.trans h with h2
  simp [CopyRun.mk.injEq] at h2

/-- C4: a length mismatch between the two positional lists makes both batch
calls abort with their `ValueError` before any per-item work — the result is
a constant that does not involve the per-item operation, so zero store calls
occur — and (under the spec's precondition batch_size > 0, since
`math.ceil(N / 0)` would itself raise `ZeroDivisionError`) the length
mismatch is the only condition aborting a batch call before it starts: with
equal lengths the copy variant returns a run and the download variant never
yields the pre-dispatch `valueError`. -/
theorem c4_length_mismatch_abort :
    (∀ (f : String → String → Except String Unit) (srcs dsts : List String)
        (b : Nat), srcs.length ≠ dsts.length →
        copyMany f srcs dsts b = Except.error BatchAbort.lengthMismatch) ∧
    (∀ (f : String → String → Except String Unit) (keys paths : List String),
        keys.length ≠ paths.length →
        downloadMany f keys paths = DownloadResult.valueError) ∧
    (∀ (f : String → String → Except String Unit) (srcs dsts : List String)
        (b : Nat), srcs.length = dsts.length → 0 < b →
        ∃ run, copyMany f srcs dsts b = Except.ok run) ∧
    (∀ (f : String → String → Except String Unit) (keys paths : List String),
        keys.length = paths.length →
        downloadMany f keys paths ≠ DownloadResult.valueError) := by
  refine ⟨?_, ?_, ?_, ?_⟩
  · intro f srcs dsts b h
    simp [copyMany, h]
  · intro f keys paths h
    simp [downloadMany, h]
  · intro f srcs dsts b hlen hb
    exact ⟨_, copyMany_ok f srcs dsts b hlen hb⟩
  · intro f keys paths hlen
    rcases downloadMany_cases f keys paths hlen with ⟨hcomp, _⟩ | ⟨e, hr⟩
    · rw [hcomp]
      intro h
      cases h
    · rw [hr]
      intro h
      cases h

/-- Witness for C4 at the spec's example of 5 sources against 3
destinations, plus a 1-item equal-length call that proceeds. -/
theorem c4_length_mismatch_abort_witness :
    ((["s1", "s2", "s3", "s4", "s5"] : List String).length ≠
        (["d1", "d2", "d3"] : List String).length ∧
      copyMany fOk ["s1", "s2", "s3", "s4", "s5"] ["d1", "d2", "d3"] 1000 =
        Except.error BatchAbort.lengthMismatch) ∧
    downloadMany fOk ["s1", "s2", "s3", "s4", "s5"] ["d1", "d2", "d3"] =
      DownloadResult.valueError ∧
    (∃ run, copyMany fOk ["s1"] ["d1"] 1000 = Except.ok run) ∧
    downloadMany fOk ["s1"] ["d1"] ≠ DownloadResult.valueError :=
  ⟨⟨by decide, c4_length_mismatch_abort.1 fOk _ _ 1000 (by decide)⟩,
   c4_length_mismatch_abort.2.1 fOk ["s1", "s2", "s3", "s4", "s5"]
     ["d1", "d2", "d3"] (by decide),
   c4_length_mismatch_abort.2.2.1 fOk ["s1"] ["d1"] 1000 rfl (by decide),
   c4_length_mismatch_abort.2.2.2 fOk ["s1"] ["d1"] rfl⟩

/-- C7 counterexample: the size operation `_get_size` has no exception
handler, so a store-side `ClientError` (here an access-denied response) is
re-raised to the caller instead of being surfaced as a sentinel: the caller
receives no return value at all. -/
theorem c7_get_size_raises_cex :
    getSize (Except.error (StoreErr.clientError "AccessDenied")) =
      Except.error (StoreErr.clientError "AccessDenied") ∧
    surfaced (getSize (Except.error (StoreErr.clientError "AccessDenied"))) =
      none :=
  ⟨rfl, rfl⟩

/-- C7 amended: for the put, copy, delete, get and list Gateway operations, a
store failure raised as a `ClientError` is surfaced as the boolean/absent/
empty sentinel (`False`, `None`, `[]`) and not re-raised; a store failure
outside the `ClientError` hierarchy (a connection-level network error)
propagates to the caller of each of them; and the size operation has no
handler at all, so it propagates every store failure. -/
theorem c7_gateway_sentinel_amended :
    ∀ m : String,
      (uploadFile (Except.error (StoreErr.clientError m)) = Except.ok false ∧
        copyObject (Except.error (StoreErr.clientError m)) = Except.ok false ∧
        deleteObject (Except.error (StoreErr.clientError m)) = Except.ok false ∧
        getFileObj (Except.error (StoreErr.clientError m)) = Except.ok none ∧
        listKeys (Except.error (StoreErr.clientError m)) = Except.ok []) ∧
      (∀ e : StoreErr, getSize (Except.error e) = Except.error e) ∧
      (uploadFile (Except.error (StoreErr.connectionError m)) =
          Except.error (StoreErr.connectionError m) ∧
        copyObject (Except.error (StoreErr.connectionError m)) =
          Except.error (StoreErr.connectionError m) ∧
        deleteObject (Except.error (StoreErr.connectionError m)) =
          Except.error (StoreErr.connectionError m) ∧
        getFileObj (Except.error (StoreErr.connectionError m)) =
          Except.error (StoreErr.connectionError m) ∧
        listKeys (Except.error (StoreErr.connectionError m)) =
          Except.error (StoreErr.connectionError m)) := by
  intro m
  exact ⟨⟨rfl, rfl, rfl, rfl, rfl⟩, fun _ => rfl, rfl, rfl, rfl, rfl, rfl⟩

/-- C8 counterexample: the facade's move issues one copy and TWO deletes of
the source key (one from `_move_object`, a second from the extra
`self.delete_object(source_key)`), not exactly one delete. -/
theorem c8_move_two_deletes_cex :
    bucketMoveObject "a/1.txt" "b/1.txt" ≠
      [StoreOp.copyOp "a/1.txt" "b/1.txt", StoreOp.deleteOp "a/1.txt"] ∧
    (bucketMoveObject "a/1.txt" "b/1.txt").countP
      (fun op => match op with
        | StoreOp.deleteOp _ => true
        | _ => false) = 2 ∧
    (bucketMoveObject "a/1.txt" "b/1.txt").countP
      (fun op => match op with
        | StoreOp.copyOp _ _ => true
        | _ => false) = 1 := by
  refine ⟨fun h => ?_, rfl, rfl⟩
  have h2 : ([StoreOp.copyOp "a/1.txt" "b/1.txt", StoreOp.deleteOp "a/1.txt",
      StoreOp.deleteOp "a/1.txt"] : List StoreOp) =
      [StoreOp.copyOp "a/1.txt" "b/1.txt", StoreOp.deleteOp "a/1.txt"] := h
  simp at h2

/-- C8 amended: for every source and destination key, the facade's move
issues exactly one copy of the source to the destination followed by exactly
two deletes of the source object. -/
theorem c8_move_trace_amended :
    ∀ srcKey dstKey : String,
      bucketMoveObject srcKey dstKey =
        [StoreOp.copyOp srcKey dstKey, StoreOp.deleteOp srcKey,
          StoreOp.deleteOp srcKey] :=
  fun _ _ => rfl

/-- C9 counterexample: a connection-level network failure during the
existence check is not a `ClientError`, so `_key_exists` does not catch it:
the call raises instead of returning `False`. -/
theorem c9_exists_network_error_cex :
    keyExists (Except.error
        (StoreErr.connectionError "EndpointConnectionError")) =
      Except.error (StoreErr.connectionError "EndpointConnectionError") ∧
    keyExists (Except.error
        (StoreErr.connectionError "EndpointConnectionError")) ≠
      Except.ok false :=
  ⟨rfl, fun h => Except.noConfusion h⟩

/-- C9 amended: the existence check returns `True` when the head call
succeeds and `False` when it fails with a `ClientError` (which covers both
true absence and service error responses such as access denied — that
conflation holds); but a store failure outside the `ClientError` hierarchy
(a network error) does not collapse to the negative result: it propagates. -/
theorem c9_key_exists_amended :
    ∀ m : String,
      keyExists (Except.ok ()) = Except.ok true ∧
      keyExists (Except.error (StoreErr.clientError m)) = Except.ok false ∧
      keyExists (Except.error (StoreErr.connectionError m)) =
        Except.error (StoreErr.connectionError m) :=
  fun _ => ⟨rfl, rfl, rfl⟩

/-- C10: `S3BucketClient.upload_file` returns the caller-supplied s3 key
when one is given (Python-truthy, i.e. non-empty), and the freshly generated
key otherwise, and the value is identical whether the underlying
`_upload_file` reported success or failure — an upload failure is not
observable in the return value. -/
theorem c10_upload_returns_key (genKey p : String) (hp : p ≠ "") :
    upload_file genKey (some p) true = p ∧
    upload_file genKey (some p) false = p ∧
    upload_file genKey none true = genKey ∧
    upload_file genKey none false = genKey := by
  refine ⟨?_, ?_, rfl, rfl⟩ <;> simp [upload_file, hp]

/-- Witness for C10 with a supplied key `"img.png"` and a generated key
`"gen1234.png"`. -/
theorem c10_upload_returns_key_witness :
    ("img.png" : String) ≠ "" ∧
    (upload_file "gen1234.png" (some "img.png") true = "img.png" ∧
      upload_file "gen1234.png" (some "img.png") false = "img.png" ∧
      upload_file "gen1234.png" none true = "gen1234.png" ∧
      upload_file "gen1234.png" none false = "gen1234.png") :=
  ⟨by decide, c10_upload_returns_key "gen1234.png" "img.png" (by decide)⟩
